import Mathlib

/-!
Verification of the section-property engine (`sections.py`).

The engine computes cross-sectional geometric and strength properties for
three fixed steel cross-section configurations:

* `BuiltUpI`    — asymmetric built-up I section (exact ℚ arithmetic);
* `CHS`         — circular hollow section (tube), closed annulus forms over ℝ;
* `CHS_UPE_LR`  — tube reinforced by two catalog channels placed left-right;
* `CHS_UPE_TB`  — tube reinforced by two catalog channels placed top-bottom.

Every definition below follows the corresponding Python source line by line.
Purely rational computations (the built-up I strategy) are embedded over ℚ so
they stay executable and decidable; the tube and the composite strategies need
π and are embedded over ℝ.
-/

/-- Unit conversion used for the moment entries of the output record
(`nmm_to_knm` in the source): N·mm to kN·m. -/
def nmm_to_knm (M : ℚ) : ℚ := M / 1000000

/-- Real-valued variant of the moment unit conversion, for the composite
strategies. -/
noncomputable def nmm_to_knmR (M : ℝ) : ℝ := M / 1000000

/-- `BuiltUpI` dataclass: an asymmetric built-up I section.  The field `fy`
is the yield stress of the attached `Material` (default 355 MPa). -/
structure BuiltUpI where
  b_top : ℚ
  t_top : ℚ
  b_bot : ℚ
  t_bot : ℚ
  tw : ℚ
  H : ℚ
  fy : ℚ := 355

namespace BuiltUpI

/-- Top flange area `A_top = b_top * t_top`. -/
def A_top (s : BuiltUpI) : ℚ := s.b_top * s.t_top

/-- Web area `A_web = tw * (H - t_top - t_bot)`. -/
def A_web (s : BuiltUpI) : ℚ := s.tw * (s.H - s.t_top - s.t_bot)

/-- Bottom flange area `A_bot = b_bot * t_bot`. -/
def A_bot (s : BuiltUpI) : ℚ := s.b_bot * s.t_bot

/-- Total area `A = A_top + A_web + A_bot`. -/
def A (s : BuiltUpI) : ℚ := A_top s + A_web s + A_bot s

/-- Centroid depth of the top flange, measured from the top face. -/
def y_top (s : BuiltUpI) : ℚ := s.t_top / 2

/-- Centroid depth of the web, measured from the top face. -/
def y_web (s : BuiltUpI) : ℚ := s.t_top + (s.H - s.t_top - s.t_bot) / 2

/-- Centroid depth of the bottom flange, measured from the top face. -/
def y_bot (s : BuiltUpI) : ℚ := s.H - s.t_bot / 2

/-- Area-weighted centroid depth `ybar`. -/
def ybar (s : BuiltUpI) : ℚ :=
  (A_top s * y_top s + A_web s * y_web s + A_bot s * y_bot s) / A s

/-- Distance from the centroid to the top face (`c_top = ybar`). -/
def c_top (s : BuiltUpI) : ℚ := ybar s

/-- Distance from the centroid to the bottom face (`c_bot = H - ybar`). -/
def c_bot (s : BuiltUpI) : ℚ := s.H - ybar s

/-- Second moment of area about the centroidal x-axis, by the parallel-axis
(Steiner) combination of the three rectangles, exactly as in the source
(`Ix_top0 + A_top*d_top**2 + Ix_web0 + A_web*d_web**2 + Ix_bot0 + A_bot*d_bot**2`
with `d_* = abs(y_* - ybar)`). -/
def Ix (s : BuiltUpI) : ℚ :=
  s.b_top * s.t_top ^ 3 / 12 + A_top s * |y_top s - ybar s| ^ 2
    + s.tw * (s.H - s.t_top - s.t_bot) ^ 3 / 12 + A_web s * |y_web s - ybar s| ^ 2
    + s.b_bot * s.t_bot ^ 3 / 12 + A_bot s * |y_bot s - ybar s| ^ 2

/-- Second moment of area about the vertical centroidal axis
(`Iy_top + Iy_web + Iy_bot`, no offset terms). -/
def Iy (s : BuiltUpI) : ℚ :=
  s.t_top * s.b_top ^ 3 / 12 + (s.H - s.t_top - s.t_bot) * s.tw ^ 3 / 12
    + s.t_bot * s.b_bot ^ 3 / 12

/-- Elastic modulus about x: `We_x = min(Ix / c_top, Ix / c_bot)`. -/
def We_x (s : BuiltUpI) : ℚ := min (Ix s / c_top s) (Ix s / c_bot s)

/-- Elastic modulus about y: `We_y = Iy / max(b_top/2, b_bot/2)`. -/
def We_y (s : BuiltUpI) : ℚ := Iy s / max (s.b_top / 2) (s.b_bot / 2)

/-- Half of the total area, the target of the equal-area rule. -/
def A_half (s : BuiltUpI) : ℚ := A s / 2

/-- Plastic neutral axis depth from the top face.  The source condition
`A_top >= A_half` is written here as `A_half ≤ A_top`. -/
def y_PNA (s : BuiltUpI) : ℚ :=
  if A_half s ≤ A_top s then A_half s / s.b_top
  else s.t_top + (A_half s - A_top s) / s.tw

/-- First moment of the compression side about the plastic neutral axis,
following the two source branches (`Qc = b_top*t*(t/2)` in the top-flange
branch, `Qc_top + Qc_web` in the web branch). -/
def Qc (s : BuiltUpI) : ℚ :=
  if A_half s ≤ A_top s then
    s.b_top * (A_half s / s.b_top) * (A_half s / s.b_top / 2)
  else
    A_top s * (y_PNA s - y_top s)
      + (s.tw * ((A_half s - A_top s) / s.tw)) * ((A_half s - A_top s) / s.tw / 2)

/-- Source quantity `web_lower_h = (H - t_top - t_bot) - (y_PNA - t_top)`. -/
def web_lower_h (s : BuiltUpI) : ℚ :=
  (s.H - s.t_top - s.t_bot) - (y_PNA s - s.t_top)

/-- Source quantity `Qt_web = (tw * web_lower_h) * (web_lower_h / 2)`. -/
def Qt_web (s : BuiltUpI) : ℚ := (s.tw * web_lower_h s) * (web_lower_h s / 2)

/-- Source quantity `dist_to_bot = (H - t_bot/2) - y_PNA`. -/
def dist_to_bot (s : BuiltUpI) : ℚ := (s.H - s.t_bot / 2) - y_PNA s

/-- Source quantity `Qt_bot = A_bot * dist_to_bot`. -/
def Qt_bot (s : BuiltUpI) : ℚ := A_bot s * dist_to_bot s

/-- Plastic modulus about x as computed by the source:
`Wp_x = Qc + Qt_web + Qt_bot`. -/
def Wp_x (s : BuiltUpI) : ℚ := Qc s + Qt_web s + Qt_bot s

/-- Plastic modulus about y:
`Wp_y = t_top*b_top²/4 + t_bot*b_bot²/4 + (H - t_top - t_bot)*tw²/4`. -/
def Wp_y (s : BuiltUpI) : ℚ :=
  s.t_top * s.b_top ^ 2 / 4 + s.t_bot * s.b_bot ^ 2 / 4
    + (s.H - s.t_top - s.t_bot) * s.tw ^ 2 / 4

/-- Shape factor about x: `shape_x = Wp_x / We_x`. -/
def shape_x (s : BuiltUpI) : ℚ := Wp_x s / We_x s

/-- Shape factor about y: `shape_y = Wp_y / We_y`. -/
def shape_y (s : BuiltUpI) : ℚ := Wp_y s / We_y s

/-- The flat output record returned by `BuiltUpI.compute`, as an ordered
association list mirroring the Python dict literal (insertion order). -/
def computeRecord (s : BuiltUpI) : List (String × ℚ) :=
  [("A_mm2", A s),
   ("Ix_mm4", Ix s), ("Iy_mm4", Iy s),
   ("We_x_mm3", We_x s), ("We_y_mm3", We_y s),
   ("Wp_x_mm3", Wp_x s), ("Wp_y_mm3", Wp_y s),
   ("Me_x_kNm", nmm_to_knm (s.fy * We_x s)),
   ("Mp_x_kNm", nmm_to_knm (s.fy * Wp_x s)),
   ("shape_x", shape_x s),
   ("Me_y_kNm", nmm_to_knm (s.fy * We_y s)),
   ("Mp_y_kNm", nmm_to_knm (s.fy * Wp_y s)),
   ("shape_y", shape_y s)]

/-- Modelled from the spec (§4.3 step 6): the exact two-sided first-moment
plastic modulus, with every geometric region split at the plastic neutral
axis contributing its exact area times centroid distance — in the top-flange
branch the tension side consists of the below-axis part of the top flange
(width `b_top`), the whole web and the bottom flange; in the web branch it
consists of the below-axis part of the web and the bottom flange.  This is
the comparison definition for the refinement claim about `Wp_x`. -/
def Wp_x_spec (s : BuiltUpI) : ℚ :=
  if A_half s ≤ A_top s then
    s.b_top * y_PNA s * (y_PNA s / 2)
      + s.b_top * (s.t_top - y_PNA s) * ((s.t_top - y_PNA s) / 2)
      + A_web s * ((s.t_top - y_PNA s) + (s.H - s.t_top - s.t_bot) / 2)
      + A_bot s * (y_bot s - y_PNA s)
  else
    A_top s * (y_PNA s - y_top s)
      + (s.tw * (y_PNA s - s.t_top)) * ((y_PNA s - s.t_top) / 2)
      + (s.tw * (s.H - s.t_bot - y_PNA s)) * ((s.H - s.t_bot - y_PNA s) / 2)
      + A_bot s * (y_bot s - y_PNA s)

end BuiltUpI

/-- `CHS` dataclass: circular hollow section with outer diameter `Do` and
wall thickness `t`. -/
structure CHS where
  Do : ℝ
  t : ℝ

namespace CHS

/-- Outer radius `Ro = Do / 2`. -/
noncomputable def Ro (c : CHS) : ℝ := c.Do / 2

/-- Inner radius `Ri = Do / 2 - t`. -/
noncomputable def Ri (c : CHS) : ℝ := c.Do / 2 - c.t

/-- Annulus area `A = π (Ro² - Ri²)`. -/
noncomputable def A (c : CHS) : ℝ := Real.pi * (Ro c ^ 2 - Ri c ^ 2)

/-- Annulus second moment `I = (π/4)(Ro⁴ - Ri⁴)`. -/
noncomputable def I (c : CHS) : ℝ := (Real.pi / 4) * (Ro c ^ 4 - Ri c ^ 4)

/-- Annulus plastic modulus `Wp = (4/3)(Ro³ - Ri³)`. -/
noncomputable def Wp (c : CHS) : ℝ := (4 / 3) * (Ro c ^ 3 - Ri c ^ 3)

end CHS

/-- `UPE300Catalog` dataclass: catalog constants of the rolled channel,
with the UPE300 values as defaults. -/
structure UPE300Catalog where
  A : ℝ := 5660
  Ix : ℝ := 3.24e7
  Iy : ℝ := 1.52e6
  h : ℝ := 300
  b : ℝ := 100
  tf : ℝ := 15
  tw : ℝ := 9.5
  hi : ℝ := 270
  e_back_to_cg : ℝ := 27.5

namespace UPE300Catalog

/-- Channel elastic modulus about its strong axis: `We_x = Ix / (h/2)`. -/
noncomputable def We_x (u : UPE300Catalog) : ℝ := u.Ix / (u.h / 2)

/-- Channel plastic-modulus estimate: `Wp_x_est = 1.12 * We_x`. -/
noncomputable def Wp_x_est (u : UPE300Catalog) : ℝ := 1.12 * We_x u

/-- Channel exact weak-axis plastic modulus:
`Wp_y_exact = 2*(tf*b²/4) + hi*tw²/4`. -/
noncomputable def Wp_y_exact (u : UPE300Catalog) : ℝ :=
  2 * (u.tf * u.b ^ 2 / 4) + u.hi * u.tw ^ 2 / 4

end UPE300Catalog

/-- Output-record values of the composite strategies: the `section` entry is
a string, all other entries are numbers. -/
inductive Val where
  | str (s : String)
  | num (x : ℝ)

/-- `CHS_UPE_LR` dataclass: tube plus two channels placed left-right. -/
structure CHS_UPE_LR where
  tube : CHS
  upe : UPE300Catalog := {}
  gap_back : ℝ := 28.9
  fy : ℝ := 355
  Wp_x_upe_override : Option ℝ := none

namespace CHS_UPE_LR

/-- Horizontal channel-centroid offset `x_c = Ro + gap_back + e_back_to_cg`. -/
noncomputable def x_c (s : CHS_UPE_LR) : ℝ :=
  s.tube.Ro + s.gap_back + s.upe.e_back_to_cg

/-- Total area `A_total = tube.A + 2*upe.A`. -/
noncomputable def A_total (s : CHS_UPE_LR) : ℝ := s.tube.A + 2 * s.upe.A

/-- `Ix = tube.I + 2*upe.Ix` (no Steiner term). -/
noncomputable def Ix (s : CHS_UPE_LR) : ℝ := s.tube.I + 2 * s.upe.Ix

/-- `Iy = tube.I + 2*(upe.Iy + upe.A * x_c²)` (Steiner term applies). -/
noncomputable def Iy (s : CHS_UPE_LR) : ℝ :=
  s.tube.I + 2 * (s.upe.Iy + s.upe.A * x_c s ^ 2)

/-- Extreme-fiber distance for x-bending: `c_x = max(Ro, h/2)`. -/
noncomputable def c_x (s : CHS_UPE_LR) : ℝ := max s.tube.Ro (s.upe.h / 2)

/-- Source quantity `x_outer_upe = max(Ro + gap_back, x_c + b/2)`. -/
noncomputable def x_outer_upe (s : CHS_UPE_LR) : ℝ :=
  max (s.tube.Ro + s.gap_back) (x_c s + s.upe.b / 2)

/-- Extreme-fiber distance for y-bending: `c_y = max(Ro, x_outer_upe)`. -/
noncomputable def c_y (s : CHS_UPE_LR) : ℝ := max s.tube.Ro (x_outer_upe s)

/-- Elastic modulus `We_x = Ix / c_x`. -/
noncomputable def We_x (s : CHS_UPE_LR) : ℝ := Ix s / c_x s

/-- Elastic modulus `We_y = Iy / c_y`. -/
noncomputable def We_y (s : CHS_UPE_LR) : ℝ := Iy s / c_y s

/-- Channel strong-axis plastic modulus used by the strategy: the override
if supplied, else the catalog estimate (source conditional
`Wp_x_upe_override if ... is not None else upe.Wp_x_est`). -/
noncomputable def Wp_x_upe (s : CHS_UPE_LR) : ℝ :=
  match s.Wp_x_upe_override with
  | some v => v
  | none => s.upe.Wp_x_est

/-- `Wp_x = tube.Wp + 2 * Wp_x_upe`. -/
noncomputable def Wp_x (s : CHS_UPE_LR) : ℝ := s.tube.Wp + 2 * Wp_x_upe s

/-- `Wp_y = tube.Wp + 2 * (upe.A * x_c)`. -/
noncomputable def Wp_y (s : CHS_UPE_LR) : ℝ := s.tube.Wp + 2 * (s.upe.A * x_c s)

/-- Shape factor about x. -/
noncomputable def shape_x (s : CHS_UPE_LR) : ℝ := Wp_x s / We_x s

/-- Shape factor about y. -/
noncomputable def shape_y (s : CHS_UPE_LR) : ℝ := Wp_y s / We_y s

/-- The flat output record of the left-right strategy, in the dict-literal
order of the source. -/
noncomputable def computeRecord (s : CHS_UPE_LR) : List (String × Val) :=
  [("section", Val.str "CHS+2×UPE L-R"),
   ("x_c_mm", Val.num (x_c s)),
   ("A_mm2", Val.num (A_total s)),
   ("Ix_mm4", Val.num (Ix s)), ("Iy_mm4", Val.num (Iy s)),
   ("We_x_mm3", Val.num (We_x s)), ("We_y_mm3", Val.num (We_y s)),
   ("Wp_x_mm3", Val.num (Wp_x s)), ("Wp_y_mm3", Val.num (Wp_y s)),
   ("Me_x_kNm", Val.num (nmm_to_knmR (s.fy * We_x s))),
   ("Mp_x_kNm", Val.num (nmm_to_knmR (s.fy * Wp_x s))),
   ("shape_x", Val.num (shape_x s)),
   ("Me_y_kNm", Val.num (nmm_to_knmR (s.fy * We_y s))),
   ("Mp_y_kNm", Val.num (nmm_to_knmR (s.fy * Wp_y s))),
   ("shape_y", Val.num (shape_y s))]

end CHS_UPE_LR

/-- `CHS_UPE_TB` dataclass: tube plus two channels placed top-bottom. -/
structure CHS_UPE_TB where
  tube : CHS
  upe : UPE300Catalog := {}
  y_c : ℝ := 190.4
  fy : ℝ := 355

namespace CHS_UPE_TB

/-- `Ix = tube.I + 2*(upe.Ix + upe.A * y_c²)` (Steiner term applies). -/
noncomputable def Ix (s : CHS_UPE_TB) : ℝ :=
  s.tube.I + 2 * (s.upe.Ix + s.upe.A * s.y_c ^ 2)

/-- `Iy = tube.I + 2*upe.Iy` (no Steiner term). -/
noncomputable def Iy (s : CHS_UPE_TB) : ℝ := s.tube.I + 2 * s.upe.Iy

/-- Extreme-fiber distance for x-bending: `c_x = max(Ro, y_c + h/2)`. -/
noncomputable def c_x (s : CHS_UPE_TB) : ℝ := max s.tube.Ro (s.y_c + s.upe.h / 2)

/-- Extreme-fiber distance for y-bending: `c_y = max(Ro, b/2)`. -/
noncomputable def c_y (s : CHS_UPE_TB) : ℝ := max s.tube.Ro (s.upe.b / 2)

/-- Elastic modulus `We_x = Ix / c_x`. -/
noncomputable def We_x (s : CHS_UPE_TB) : ℝ := Ix s / c_x s

/-- Elastic modulus `We_y = Iy / c_y`. -/
noncomputable def We_y (s : CHS_UPE_TB) : ℝ := Iy s / c_y s

/-- `Wp_x = tube.Wp + 2 * (upe.A * y_c)`. -/
noncomputable def Wp_x (s : CHS_UPE_TB) : ℝ := s.tube.Wp + 2 * (s.upe.A * s.y_c)

/-- `Wp_y = tube.Wp + 2 * upe.Wp_y_exact`. -/
noncomputable def Wp_y (s : CHS_UPE_TB) : ℝ := s.tube.Wp + 2 * s.upe.Wp_y_exact

/-- Shape factor about x. -/
noncomputable def shape_x (s : CHS_UPE_TB) : ℝ := Wp_x s / We_x s

/-- Shape factor about y. -/
noncomputable def shape_y (s : CHS_UPE_TB) : ℝ := Wp_y s / We_y s

/-- The flat output record of the top-bottom strategy, in the dict-literal
order of the source. -/
noncomputable def computeRecord (s : CHS_UPE_TB) : List (String × Val) :=
  [("section", Val.str "CHS+2×UPE T-B"),
   ("y_c_mm", Val.num s.y_c),
   ("A_mm2", Val.num (s.tube.A + 2 * s.upe.A)),
   ("Ix_mm4", Val.num (Ix s)), ("Iy_mm4", Val.num (Iy s)),
   ("We_x_mm3", Val.num (We_x s)), ("We_y_mm3", Val.num (We_y s)),
   ("Wp_x_mm3", Val.num (Wp_x s)), ("Wp_y_mm3", Val.num (Wp_y s)),
   ("Me_x_kNm", Val.num (nmm_to_knmR (s.fy * We_x s))),
   ("Mp_x_kNm", Val.num (nmm_to_knmR (s.fy * Wp_x s))),
   ("shape_x", Val.num (shape_x s)),
   ("Me_y_kNm", Val.num (nmm_to_knmR (s.fy * We_y s))),
   ("Mp_y_kNm", Val.num (nmm_to_knmR (s.fy * Wp_y s))),
   ("shape_y", Val.num (shape_y s))]

end CHS_UPE_TB


/-!
### Helper lemmas

Shared facts used by several claim theorems: the annulus inequality
`I / Ro ≤ Wp` (the tube's shape factor is at least `4/π ≥ 1`), nonnegativity
of the annulus second moment, and a decomposition bound for elastic moduli of
composite sections.
-/

/-- For an annulus with `0 ≤ r < R`, the elastic modulus `I / R` is at most
the plastic modulus `(4/3)(R³ - r³)`. -/
lemma annulus_I_div_le_Wp (R r : ℝ) (h0 : 0 ≤ r) (h1 : r < R) :
    Real.pi / 4 * (R ^ 4 - r ^ 4) / R ≤ 4 / 3 * (R ^ 3 - r ^ 3) := by
  have hR : 0 < R := lt_of_le_of_lt h0 h1
  have hpi : Real.pi ≤ 4 := Real.pi_le_four
  have hpi0 : 0 < Real.pi := Real.pi_pos
  rw [div_le_iff₀ hR]
  have h4 : r ^ 4 ≤ R ^ 4 := pow_le_pow_left₀ h0 h1.le 4
  have key : 0 ≤ (R - r) ^ 2 * (R ^ 2 + 2 * R * r + 3 * r ^ 2) := by
    apply mul_nonneg (sq_nonneg _)
    nlinarith [sq_nonneg R, sq_nonneg r, mul_nonneg h0 hR.le]
  have step1 : Real.pi / 4 * (R ^ 4 - r ^ 4) ≤ R ^ 4 - r ^ 4 := by nlinarith
  have step2 : R ^ 4 - r ^ 4 ≤ 4 / 3 * (R ^ 3 - r ^ 3) * R := by nlinarith [key]
  linarith

/-- The annulus second moment is nonnegative when `0 ≤ r ≤ R`. -/
lemma annulus_I_nonneg (R r : ℝ) (h0 : 0 ≤ r) (h1 : r ≤ R) :
    0 ≤ Real.pi / 4 * (R ^ 4 - r ^ 4) := by
  have h4 : r ^ 4 ≤ R ^ 4 := pow_le_pow_left₀ h0 h1 4
  nlinarith [Real.pi_pos]

/-- Splitting bound for composite elastic moduli: dividing the tube term by
the tube radius and the channel term by the channel extreme-fiber distance
can only increase the quotient. -/
lemma split_div_le (I K R D c : ℝ) (hI : 0 ≤ I) (hK : 0 ≤ K) (hR : 0 < R)
    (hD : 0 < D) (hcR : R ≤ c) (hcD : D ≤ c) : (I + K) / c ≤ I / R + K / D := by
  have hc : 0 < c := lt_of_lt_of_le hR hcR
  rw [add_div]
  gcongr

/-!
### Claim C1 — error handling of invalid geometry

The spec asserts a fail-fast policy: a descriptive geometry error before any
derived quantity is computed, never a silent NaN or negative area.  The code
performs no validation at all: both the tube properties and
`BuiltUpI.compute` are total and silently return values on invalid geometry,
including strictly negative areas.
-/

/-- C1 counterexample: a tube with `wall_thickness ≥ outer_diameter / 2`
(here `t = 300 ≥ 100 / 2`) does not fail — its area is silently computed and
is strictly negative, contradicting the fail-fast/no-negative-area claim. -/
theorem C1_counterexample :
    (100 : ℝ) / 2 ≤ 300 ∧ CHS.A ⟨100, 300⟩ < 0 := by
  constructor
  · norm_num
  · have hpi := Real.pi_pos
    simp only [CHS.A, CHS.Ro, CHS.Ri]
    nlinarith

/-- C1 (amended): the compute operations perform no geometry validation and
are total; on invalid geometry they silently produce values.  In particular
the tube area is strictly negative whenever `t > Do` (a fortiori
`t ≥ Do / 2`), and the built-up I web area is strictly negative whenever the
flange thicknesses sum to more than the overall height. -/
theorem C1_amended :
    (∀ c : CHS, 0 < c.Do → c.Do < c.t → c.A < 0) ∧
    (∀ s : BuiltUpI, 0 < s.tw → s.H < s.t_top + s.t_bot → s.A_web < 0) := by
  constructor
  · intro c hDo ht
    have hpi := Real.pi_pos
    simp only [CHS.A, CHS.Ro, CHS.Ri]
    have ht0 : 0 < c.t := lt_trans hDo ht
    have hprod : 0 < c.t * (c.t - c.Do) := mul_pos ht0 (by linarith)
    nlinarith [mul_pos hpi hprod]
  · intro s htw hH
    simp only [BuiltUpI.A_web]
    have : s.H - s.t_top - s.t_bot < 0 := by linarith
    exact mul_neg_of_pos_of_neg htw this

/-- C1 witness: both parts of the amended claim evaluated at concrete invalid
geometries. -/
theorem C1_witness :
    ((0 : ℝ) < 100 ∧ (100 : ℝ) < 300 ∧ CHS.A ⟨100, 300⟩ < 0) ∧
    ((0 : ℚ) < 2 ∧ (100 : ℚ) < 60 + 60 ∧ BuiltUpI.A_web ⟨10, 60, 10, 60, 2, 100, 355⟩ < 0) := by
  refine ⟨⟨by norm_num, by norm_num, ?_⟩, ⟨by norm_num, by norm_num, ?_⟩⟩
  · exact C1_amended.1 ⟨100, 300⟩ (by norm_num) (by norm_num)
  · exact C1_amended.2 ⟨10, 60, 10, 60, 2, 100, 355⟩ (by norm_num) (by norm_num)

/-!
### Claim C2 — plastic neutral axis and `Wp_x` of the built-up I

The claim restates the equal-area branch rule (which the code follows) and
asserts that `Wp_x` is the exact two-sided first moment of all regions split
at the plastic neutral axis.  That second part holds in the web branch but
fails in the top-flange branch: there the code charges the whole depth below
the axis down to the bottom flange at web width `tw`, so the part of the top
flange below the axis (width `b_top`) is mispriced whenever `b_top ≠ tw`.
-/

/-- C2 counterexample: a valid built-up I section
(`b_top=100, t_top=10, b_bot=10, t_bot=10, tw=2, H=120`) whose top flange
holds at least half the area; the code's `Wp_x` (= 23674.75) differs from the
exact two-sided first-moment sum (= 24275). -/
theorem C2_counterexample :
    BuiltUpI.A ⟨100, 10, 10, 10, 2, 120, 355⟩ / 2 ≤ BuiltUpI.A_top ⟨100, 10, 10, 10, 2, 120, 355⟩ ∧
    BuiltUpI.Wp_x ⟨100, 10, 10, 10, 2, 120, 355⟩ ≠ BuiltUpI.Wp_x_spec ⟨100, 10, 10, 10, 2, 120, 355⟩ := by
  constructor
  · norm_num [BuiltUpI.A, BuiltUpI.A_top, BuiltUpI.A_web, BuiltUpI.A_bot]
  · norm_num [BuiltUpI.Wp_x, BuiltUpI.Wp_x_spec, BuiltUpI.Qc, BuiltUpI.Qt_web, BuiltUpI.Qt_bot,
      BuiltUpI.web_lower_h, BuiltUpI.dist_to_bot, BuiltUpI.y_PNA, BuiltUpI.A_half,
      BuiltUpI.A, BuiltUpI.A_top, BuiltUpI.A_web, BuiltUpI.A_bot, BuiltUpI.y_top, BuiltUpI.y_bot]

/-- C2 (amended): when the plastic neutral axis falls in the web
(`A_top < A/2`) the returned `Wp_x` equals the exact two-sided first-moment
sum of every region split at the axis; when the axis falls in the top flange
(`A_top ≥ A/2`) the exact sum exceeds the returned value by exactly
`(b_top - tw) * (t_top - y_PNA)² / 2` (the below-axis slice of the top flange
is charged at web width). -/
theorem C2_amended :
    (∀ s : BuiltUpI, BuiltUpI.A_top s < BuiltUpI.A s / 2 →
      BuiltUpI.Wp_x s = BuiltUpI.Wp_x_spec s) ∧
    (∀ s : BuiltUpI, BuiltUpI.A s / 2 ≤ BuiltUpI.A_top s →
      BuiltUpI.Wp_x_spec s - BuiltUpI.Wp_x s
        = (s.b_top - s.tw) * (s.t_top - BuiltUpI.y_PNA s) ^ 2 / 2) := by
  constructor
  · intro s h
    have hc : ¬ (BuiltUpI.A_half s ≤ BuiltUpI.A_top s) := by
      simp only [BuiltUpI.A_half]; exact not_le.mpr h
    simp only [BuiltUpI.Wp_x, BuiltUpI.Wp_x_spec, BuiltUpI.Qc, BuiltUpI.Qt_web, BuiltUpI.Qt_bot,
      BuiltUpI.web_lower_h, BuiltUpI.dist_to_bot, BuiltUpI.y_PNA, if_neg hc, BuiltUpI.y_bot]
    ring
  · intro s h
    have hc : BuiltUpI.A_half s ≤ BuiltUpI.A_top s := h
    simp only [BuiltUpI.Wp_x, BuiltUpI.Wp_x_spec, BuiltUpI.Qc, BuiltUpI.Qt_web, BuiltUpI.Qt_bot,
      BuiltUpI.web_lower_h, BuiltUpI.dist_to_bot, BuiltUpI.y_PNA, if_pos hc, BuiltUpI.y_bot,
      BuiltUpI.A_web]
    ring

/-- C2 witness: the amended claim instantiated at the documented demo section
(web branch, `Wp_x` exact) and at the counterexample section (top-flange
branch, discrepancy formula). -/
theorem C2_witness :
    (BuiltUpI.A_top ⟨300, 20, 100, 20, 10, 800, 355⟩ < BuiltUpI.A ⟨300, 20, 100, 20, 10, 800, 355⟩ / 2 ∧
      BuiltUpI.Wp_x ⟨300, 20, 100, 20, 10, 800, 355⟩ = BuiltUpI.Wp_x_spec ⟨300, 20, 100, 20, 10, 800, 355⟩) ∧
    (BuiltUpI.A ⟨100, 10, 10, 10, 2, 120, 355⟩ / 2 ≤ BuiltUpI.A_top ⟨100, 10, 10, 10, 2, 120, 355⟩ ∧
      BuiltUpI.Wp_x_spec ⟨100, 10, 10, 10, 2, 120, 355⟩ - BuiltUpI.Wp_x ⟨100, 10, 10, 10, 2, 120, 355⟩
        = ((100 : ℚ) - 2) * (10 - BuiltUpI.y_PNA ⟨100, 10, 10, 10, 2, 120, 355⟩) ^ 2 / 2) := by
  have h1 : BuiltUpI.A_top ⟨300, 20, 100, 20, 10, 800, 355⟩ < BuiltUpI.A ⟨300, 20, 100, 20, 10, 800, 355⟩ / 2 := by
    norm_num [BuiltUpI.A, BuiltUpI.A_top, BuiltUpI.A_web, BuiltUpI.A_bot]
  have h2 : BuiltUpI.A ⟨100, 10, 10, 10, 2, 120, 355⟩ / 2 ≤ BuiltUpI.A_top ⟨100, 10, 10, 10, 2, 120, 355⟩ := by
    norm_num [BuiltUpI.A, BuiltUpI.A_top, BuiltUpI.A_web, BuiltUpI.A_bot]
  exact ⟨⟨h1, C2_amended.1 _ h1⟩, ⟨h2, C2_amended.2 _ h2⟩⟩

/-!
### Claim C3 — left-right / top-bottom inertia swap

For equal tube and equal catalog channel with equal offsets the claim asserts
`Ix(LR) = Iy(TB)` and `Iy(LR) = Ix(TB)`.  This fails: the channel's own
strong- and weak-axis inertias (`Ix = 3.24e7` vs `Iy = 1.52e6` for UPE300) do
not swap with the configuration, only the Steiner terms do.  The swap holds
exactly when the channel's two inertias coincide.
-/

/-- C3 counterexample: the documented tube (`Do=323, t=12`) with
`gap_back = 1.4` gives the left-right offset `x_c = 190.4`, equal to the
default top-bottom offset, yet `Ix(LR) ≠ Iy(TB)` (they differ by
`2·(3.24e7 - 1.52e6)`). -/
theorem C3_counterexample :
    CHS_UPE_LR.x_c ⟨⟨323, 12⟩, {}, 1.4, 355, none⟩ = (190.4 : ℝ) ∧
    CHS_UPE_LR.Ix ⟨⟨323, 12⟩, {}, 1.4, 355, none⟩ ≠ CHS_UPE_TB.Iy ⟨⟨323, 12⟩, {}, 190.4, 355⟩ := by
  constructor
  · norm_num [CHS_UPE_LR.x_c, CHS.Ro]
  · intro h
    simp only [CHS_UPE_LR.Ix, CHS_UPE_TB.Iy] at h
    norm_num at h

/-- C3 (amended): with equal tube, equal catalog channel and equal offsets,
the Steiner terms swap axes; the full inertias swap
(`Ix(LR) = Iy(TB)` and `Iy(LR) = Ix(TB)`) exactly under the additional
hypothesis that the channel's strong- and weak-axis inertias are equal. -/
theorem C3_amended (tube : CHS) (u : UPE300Catalog) (gap y_val fy : ℝ)
    (hoff : tube.Ro + gap + u.e_back_to_cg = y_val) (hIxy : u.Ix = u.Iy) :
    CHS_UPE_LR.Ix ⟨tube, u, gap, fy, none⟩ = CHS_UPE_TB.Iy ⟨tube, u, y_val, fy⟩ ∧
    CHS_UPE_LR.Iy ⟨tube, u, gap, fy, none⟩ = CHS_UPE_TB.Ix ⟨tube, u, y_val, fy⟩ := by
  constructor
  · simp only [CHS_UPE_LR.Ix, CHS_UPE_TB.Iy, hIxy]
  · simp only [CHS_UPE_LR.Iy, CHS_UPE_TB.Ix, CHS_UPE_LR.x_c, hoff, hIxy]

/-- C3 witness: the amended swap at a concrete tube and a concrete channel
whose two inertias are equal. -/
theorem C3_witness :
    ((10 : ℝ) / 2 + 2 + 27.5 = 34.5 ∧ ({ Ix := 70000, Iy := 70000 } : UPE300Catalog).Ix = ({ Ix := 70000, Iy := 70000 } : UPE300Catalog).Iy) ∧
    (CHS_UPE_LR.Ix ⟨⟨10, 1⟩, { Ix := 70000, Iy := 70000 }, 2, 355, none⟩
        = CHS_UPE_TB.Iy ⟨⟨10, 1⟩, { Ix := 70000, Iy := 70000 }, 34.5, 355⟩ ∧
      CHS_UPE_LR.Iy ⟨⟨10, 1⟩, { Ix := 70000, Iy := 70000 }, 2, 355, none⟩
        = CHS_UPE_TB.Ix ⟨⟨10, 1⟩, { Ix := 70000, Iy := 70000 }, 34.5, 355⟩) := by
  refine ⟨⟨by norm_num, rfl⟩, ?_⟩
  exact C3_amended ⟨10, 1⟩ { Ix := 70000, Iy := 70000 } 2 34.5 355
    (by norm_num [CHS.Ro]) rfl

/-- Tube-level form of the annulus inequality: `I / Ro ≤ Wp` for a tube with
nonnegative inner radius. -/
lemma CHS_I_div_Ro_le_Wp (c : CHS) (h0 : 0 ≤ c.Ri) (h1 : c.Ri < c.Ro) :
    c.I / c.Ro ≤ c.Wp := by
  simpa only [CHS.I, CHS.Wp] using annulus_I_div_le_Wp c.Ro c.Ri h0 h1

/-- The tube second moment is nonnegative when the inner radius is. -/
lemma CHS_I_nonneg (c : CHS) (h0 : 0 ≤ c.Ri) (h1 : c.Ri ≤ c.Ro) : 0 ≤ c.I := by
  simpa only [CHS.I] using annulus_I_nonneg c.Ro c.Ri h0 h1

/-- Left-right composite with the default catalog: the strong-axis shape
factor is at least 1 for any valid tube. -/
lemma LR_shape_x_ge_one (Do t gap : ℝ) (ht : 0 < t) (htD : t < Do / 2) :
    1 ≤ CHS_UPE_LR.shape_x ⟨⟨Do, t⟩, {}, gap, 355, none⟩ := by
  have hRo : 0 < Do / 2 := lt_trans ht htD
  have hRi0 : (0 : ℝ) ≤ CHS.Ri ⟨Do, t⟩ := by simp only [CHS.Ri]; linarith
  have hRi1 : CHS.Ri ⟨Do, t⟩ < CHS.Ro ⟨Do, t⟩ := by simp only [CHS.Ri, CHS.Ro]; linarith
  have hI0 : 0 ≤ CHS.I ⟨Do, t⟩ := CHS_I_nonneg _ hRi0 hRi1.le
  have hWp : CHS.I ⟨Do, t⟩ / (Do / 2) ≤ CHS.Wp ⟨Do, t⟩ := by
    have := CHS_I_div_Ro_le_Wp ⟨Do, t⟩ hRi0 hRi1
    simpa only [CHS.Ro] using this
  simp only [CHS_UPE_LR.shape_x, CHS_UPE_LR.Wp_x, CHS_UPE_LR.We_x, CHS_UPE_LR.Ix,
    CHS_UPE_LR.c_x, CHS_UPE_LR.Wp_x_upe, UPE300Catalog.Wp_x_est, UPE300Catalog.We_x,
    CHS.Ro]
  norm_num
  have hWe_pos : 0 < (CHS.I ⟨Do, t⟩ + 64800000) / (Do / 2 ⊔ 150) := by
    apply div_pos (by linarith) (lt_of_lt_of_le hRo (le_max_left _ _))
  rw [one_le_div hWe_pos]
  have hsplit : (CHS.I ⟨Do, t⟩ + 64800000) / (Do / 2 ⊔ 150)
      ≤ CHS.I ⟨Do, t⟩ / (Do / 2) + 64800000 / 150 :=
    split_div_le _ _ _ _ _ hI0 (by norm_num) hRo (by norm_num)
      (le_max_left _ _) (le_max_right _ _)
  have h150 : (64800000 : ℝ) / 150 = 432000 := by norm_num
  linarith

/-- Left-right composite with the default catalog: the weak-axis shape factor
is at least 1 for any valid tube and nonnegative back gap. -/
lemma LR_shape_y_ge_one (Do t gap : ℝ) (ht : 0 < t) (htD : t < Do / 2) (hg : 0 ≤ gap) :
    1 ≤ CHS_UPE_LR.shape_y ⟨⟨Do, t⟩, {}, gap, 355, none⟩ := by
  have hRo : 0 < Do / 2 := lt_trans ht htD
  have hRi0 : (0 : ℝ) ≤ CHS.Ri ⟨Do, t⟩ := by simp only [CHS.Ri]; linarith
  have hRi1 : CHS.Ri ⟨Do, t⟩ < CHS.Ro ⟨Do, t⟩ := by simp only [CHS.Ri, CHS.Ro]; linarith
  have hI0 : 0 ≤ CHS.I ⟨Do, t⟩ := CHS_I_nonneg _ hRi0 hRi1.le
  have hWp : CHS.I ⟨Do, t⟩ / (Do / 2) ≤ CHS.Wp ⟨Do, t⟩ := by
    have := CHS_I_div_Ro_le_Wp ⟨Do, t⟩ hRi0 hRi1
    simpa only [CHS.Ro] using this
  have hx : 0 < Do / 2 + gap + 27.5 := by linarith
  simp only [CHS_UPE_LR.shape_y, CHS_UPE_LR.Wp_y, CHS_UPE_LR.We_y, CHS_UPE_LR.Iy,
    CHS_UPE_LR.c_y, CHS_UPE_LR.x_outer_upe, CHS_UPE_LR.x_c, CHS.Ro]
  norm_num
  set x := Do / 2 + gap + 55 / 2 with hxdef
  have hx275 : (55 : ℝ) / 2 ≤ x := by rw [hxdef]; linarith
  clear_value x
  have hx50 : 0 < x + 50 := by linarith
  have hc1 : Do / 2 ≤ Do / 2 ⊔ ((Do / 2 + gap) ⊔ (x + 50)) := le_max_left _ _
  have hc2 : x + 50 ≤ Do / 2 ⊔ ((Do / 2 + gap) ⊔ (x + 50)) :=
    le_trans (le_max_right _ _) (le_max_right _ _)
  have hK0 : (0 : ℝ) < 2 * (1520000 + 5660 * x ^ 2) := by positivity
  have hWe_pos : 0 < (CHS.I ⟨Do, t⟩ + 2 * (1520000 + 5660 * x ^ 2))
      / (Do / 2 ⊔ ((Do / 2 + gap) ⊔ (x + 50))) :=
    div_pos (by linarith) (lt_of_lt_of_le hRo hc1)
  rw [one_le_div hWe_pos]
  have hsplit : (CHS.I ⟨Do, t⟩ + 2 * (1520000 + 5660 * x ^ 2))
      / (Do / 2 ⊔ ((Do / 2 + gap) ⊔ (x + 50)))
      ≤ CHS.I ⟨Do, t⟩ / (Do / 2) + 2 * (1520000 + 5660 * x ^ 2) / (x + 50) :=
    split_div_le _ _ _ _ _ hI0 hK0.le hRo hx50 hc1 hc2
  have hchan : 2 * (1520000 + 5660 * x ^ 2) / (x + 50) ≤ 2 * (5660 * x) := by
    rw [div_le_iff₀ hx50]
    nlinarith [hx275]
  exact le_trans hsplit (add_le_add hWp hchan)

/-- Top-bottom composite with the default catalog: the weak-axis shape factor
is at least 1 for any valid tube and any offset. -/
lemma TB_shape_y_ge_one (Do t yc : ℝ) (ht : 0 < t) (htD : t < Do / 2) :
    1 ≤ CHS_UPE_TB.shape_y ⟨⟨Do, t⟩, {}, yc, 355⟩ := by
  have hRo : 0 < Do / 2 := lt_trans ht htD
  have hRi0 : (0 : ℝ) ≤ CHS.Ri ⟨Do, t⟩ := by simp only [CHS.Ri]; linarith
  have hRi1 : CHS.Ri ⟨Do, t⟩ < CHS.Ro ⟨Do, t⟩ := by simp only [CHS.Ri, CHS.Ro]; linarith
  have hI0 : 0 ≤ CHS.I ⟨Do, t⟩ := CHS_I_nonneg _ hRi0 hRi1.le
  have hWp : CHS.I ⟨Do, t⟩ / (Do / 2) ≤ CHS.Wp ⟨Do, t⟩ := by
    have := CHS_I_div_Ro_le_Wp ⟨Do, t⟩ hRi0 hRi1
    simpa only [CHS.Ro] using this
  simp only [CHS_UPE_TB.shape_y, CHS_UPE_TB.Wp_y, CHS_UPE_TB.We_y, CHS_UPE_TB.Iy,
    CHS_UPE_TB.c_y, UPE300Catalog.Wp_y_exact, CHS.Ro]
  norm_num
  have hWe_pos : 0 < (CHS.I ⟨Do, t⟩ + 3040000) / (Do / 2 ⊔ 50) :=
    div_pos (by linarith) (lt_of_lt_of_le hRo (le_max_left _ _))
  rw [one_le_div hWe_pos]
  have hsplit : (CHS.I ⟨Do, t⟩ + 3040000) / (Do / 2 ⊔ 50)
      ≤ CHS.I ⟨Do, t⟩ / (Do / 2) + 3040000 / 50 :=
    split_div_le _ _ _ _ _ hI0 (by norm_num) hRo (by norm_num)
      (le_max_left _ _) (le_max_right _ _)
  refine le_trans hsplit (add_le_add hWp ?_)
  norm_num

/-- Top-bottom composite with the default catalog: the strong-axis shape
factor is at least 1 for any valid tube once the channel offset is at least
39 (in particular at the documented default 190.4). -/
lemma TB_shape_x_ge_one (Do t yc : ℝ) (ht : 0 < t) (htD : t < Do / 2) (hyc : 39 ≤ yc) :
    1 ≤ CHS_UPE_TB.shape_x ⟨⟨Do, t⟩, {}, yc, 355⟩ := by
  have hRo : 0 < Do / 2 := lt_trans ht htD
  have hRi0 : (0 : ℝ) ≤ CHS.Ri ⟨Do, t⟩ := by simp only [CHS.Ri]; linarith
  have hRi1 : CHS.Ri ⟨Do, t⟩ < CHS.Ro ⟨Do, t⟩ := by simp only [CHS.Ri, CHS.Ro]; linarith
  have hI0 : 0 ≤ CHS.I ⟨Do, t⟩ := CHS_I_nonneg _ hRi0 hRi1.le
  have hWp : CHS.I ⟨Do, t⟩ / (Do / 2) ≤ CHS.Wp ⟨Do, t⟩ := by
    have := CHS_I_div_Ro_le_Wp ⟨Do, t⟩ hRi0 hRi1
    simpa only [CHS.Ro] using this
  simp only [CHS_UPE_TB.shape_x, CHS_UPE_TB.Wp_x, CHS_UPE_TB.We_x, CHS_UPE_TB.Ix,
    CHS_UPE_TB.c_x, CHS.Ro]
  norm_num
  have hy150 : (0 : ℝ) < yc + 150 := by linarith
  have hK0 : (0 : ℝ) ≤ 2 * (32400000 + 5660 * yc ^ 2) := by positivity
  have hWe_pos : 0 < (CHS.I ⟨Do, t⟩ + 2 * (32400000 + 5660 * yc ^ 2)) / (Do / 2 ⊔ (yc + 150)) := by
    apply div_pos ?_ (lt_of_lt_of_le hRo (le_max_left _ _))
    nlinarith [sq_nonneg yc]
  rw [one_le_div hWe_pos]
  have hsplit : (CHS.I ⟨Do, t⟩ + 2 * (32400000 + 5660 * yc ^ 2)) / (Do / 2 ⊔ (yc + 150))
      ≤ CHS.I ⟨Do, t⟩ / (Do / 2) + 2 * (32400000 + 5660 * yc ^ 2) / (yc + 150) :=
    split_div_le _ _ _ _ _ hI0 hK0 hRo hy150 (le_max_left _ _) (le_max_right _ _)
  have hchan : 2 * (32400000 + 5660 * yc ^ 2) / (yc + 150) ≤ 2 * (5660 * yc) := by
    rw [div_le_iff₀ hy150]
    nlinarith [hyc]
  exact le_trans hsplit (add_le_add hWp hchan)

/-- Built-up I: the weak-axis shape factor is at least 1 for valid geometry
whose web is no wider than the wider flange. -/
lemma builtUpI_shape_y_ge_one (s : BuiltUpI) (hb1 : 0 < s.b_top) (ht1 : 0 < s.t_top)
    (hb2 : 0 < s.b_bot) (ht2 : 0 < s.t_bot) (htw : 0 < s.tw)
    (hH : s.t_top + s.t_bot < s.H) (htwb : s.tw ≤ max s.b_top s.b_bot) :
    1 ≤ BuiltUpI.shape_y s := by
  have hw : 0 < s.H - s.t_top - s.t_bot := by linarith
  have hIy : 0 < BuiltUpI.Iy s := by
    simp only [BuiltUpI.Iy]
    have e1 : 0 < s.t_top * s.b_top ^ 3 := mul_pos ht1 (pow_pos hb1 3)
    have e2 : 0 < (s.H - s.t_top - s.t_bot) * s.tw ^ 3 := mul_pos hw (pow_pos htw 3)
    have e3 : 0 < s.t_bot * s.b_bot ^ 3 := mul_pos ht2 (pow_pos hb2 3)
    linarith
  rcases le_total s.b_top s.b_bot with hbb | hbb
  · have hm : max (s.b_top / 2) (s.b_bot / 2) = s.b_bot / 2 :=
      max_eq_right (by linarith)
    have htwB : s.tw ≤ s.b_bot := by rwa [max_eq_right hbb] at htwb
    have hb2' : (0 : ℚ) < s.b_bot / 2 := by linarith
    have hWe_pos : 0 < BuiltUpI.We_y s := by
      rw [BuiltUpI.We_y, hm]; exact div_pos hIy hb2'
    rw [BuiltUpI.shape_y, one_le_div hWe_pos, BuiltUpI.We_y, hm,
      div_le_iff₀ hb2', BuiltUpI.Iy, BuiltUpI.Wp_y]
    have h1 : 0 ≤ s.t_top * s.b_top ^ 2 * (s.b_bot - s.b_top) :=
      mul_nonneg (mul_nonneg ht1.le (sq_nonneg _)) (sub_nonneg.mpr hbb)
    have h2 : 0 ≤ s.t_top * s.b_top ^ 3 := mul_nonneg ht1.le (pow_nonneg hb1.le 3)
    have h3 : 0 ≤ (s.H - s.t_top - s.t_bot) * s.tw ^ 2 * (s.b_bot - s.tw) :=
      mul_nonneg (mul_nonneg hw.le (sq_nonneg _)) (sub_nonneg.mpr htwB)
    have h4 : 0 ≤ (s.H - s.t_top - s.t_bot) * s.tw ^ 3 :=
      mul_nonneg hw.le (pow_nonneg htw.le 3)
    have h5 : 0 ≤ s.t_bot * s.b_bot ^ 3 := mul_nonneg ht2.le (pow_nonneg hb2.le 3)
    nlinarith [h1, h2, h3, h4, h5]
  · have hm : max (s.b_top / 2) (s.b_bot / 2) = s.b_top / 2 :=
      max_eq_left (by linarith)
    have htwB : s.tw ≤ s.b_top := by rwa [max_eq_left hbb] at htwb
    have hb1' : (0 : ℚ) < s.b_top / 2 := by linarith
    have hWe_pos : 0 < BuiltUpI.We_y s := by
      rw [BuiltUpI.We_y, hm]; exact div_pos hIy hb1'
    rw [BuiltUpI.shape_y, one_le_div hWe_pos, BuiltUpI.We_y, hm,
      div_le_iff₀ hb1', BuiltUpI.Iy, BuiltUpI.Wp_y]
    have h1 : 0 ≤ s.t_bot * s.b_bot ^ 2 * (s.b_top - s.b_bot) :=
      mul_nonneg (mul_nonneg ht2.le (sq_nonneg _)) (sub_nonneg.mpr hbb)
    have h2 : 0 ≤ s.t_bot * s.b_bot ^ 3 := mul_nonneg ht2.le (pow_nonneg hb2.le 3)
    have h3 : 0 ≤ (s.H - s.t_top - s.t_bot) * s.tw ^ 2 * (s.b_top - s.tw) :=
      mul_nonneg (mul_nonneg hw.le (sq_nonneg _)) (sub_nonneg.mpr htwB)
    have h4 : 0 ≤ (s.H - s.t_top - s.t_bot) * s.tw ^ 3 :=
      mul_nonneg hw.le (pow_nonneg htw.le 3)
    have h5 : 0 ≤ s.t_top * s.b_top ^ 3 := mul_nonneg ht1.le (pow_nonneg hb1.le 3)
    nlinarith [h1, h2, h3, h4, h5]

/-!
### Claim C4 — shape factors at least 1

The claim asserts `shape_x ≥ 1` and `shape_y ≥ 1` for every valid geometry of
all three strategies.  This fails for the built-up I: the plastic-axis search
has no bottom-flange branch, so when the bottom flange holds more than half
the total area the computed `Wp_x` (and hence `shape_x`) can even be
negative.  The invariant does hold for the weak axis of the built-up I (web
no wider than the wider flange) and for the two composite strategies with
the default catalog (with an offset lower bound for the top-bottom strong
axis).
-/

/-- C4 counterexample: a built-up I with strictly positive dimensions and
positive web height (`b_top=1, t_top=1, b_bot=1000, t_bot=10, tw=1, H=100`)
whose bottom flange holds more than half the area; the computed strong-axis
shape factor is negative, hence below 1. -/
theorem C4_counterexample :
    ((0 : ℚ) < 1 ∧ (0 : ℚ) < 1000 ∧ (0 : ℚ) < 10 ∧ (1 : ℚ) + 10 < 100) ∧
    BuiltUpI.shape_x ⟨1, 1, 1000, 10, 1, 100, 355⟩ < 1 := by
  refine ⟨by norm_num, ?_⟩
  norm_num [BuiltUpI.shape_x, BuiltUpI.Wp_x, BuiltUpI.We_x, BuiltUpI.Qc, BuiltUpI.Qt_web,
    BuiltUpI.Qt_bot, BuiltUpI.web_lower_h, BuiltUpI.dist_to_bot, BuiltUpI.y_PNA,
    BuiltUpI.A_half, BuiltUpI.Ix, BuiltUpI.ybar, BuiltUpI.c_top, BuiltUpI.c_bot,
    BuiltUpI.A, BuiltUpI.A_top, BuiltUpI.A_web, BuiltUpI.A_bot, BuiltUpI.y_top,
    BuiltUpI.y_web, BuiltUpI.y_bot]

/-- C4 (amended): the shape-factor invariant holds in the following form —
for every built-up I with positive dimensions, positive web height and web no
wider than the wider flange, `shape_y ≥ 1`; for every left-right composite
with the default catalog, valid tube and nonnegative back gap, both shape
factors are ≥ 1; for every top-bottom composite with the default catalog and
valid tube, `shape_y ≥ 1`, and `shape_x ≥ 1` whenever the channel offset is
at least 39 (the documented default is 190.4).  The built-up I strong axis is
excluded: `shape_x` can drop below 1 when the bottom flange holds more than
half the total area. -/
theorem C4_amended :
    (∀ s : BuiltUpI, 0 < s.b_top → 0 < s.t_top → 0 < s.b_bot → 0 < s.t_bot →
      0 < s.tw → s.t_top + s.t_bot < s.H → s.tw ≤ max s.b_top s.b_bot →
      1 ≤ BuiltUpI.shape_y s) ∧
    (∀ Do t gap : ℝ, 0 < t → t < Do / 2 → 0 ≤ gap →
      1 ≤ CHS_UPE_LR.shape_x ⟨⟨Do, t⟩, {}, gap, 355, none⟩ ∧
      1 ≤ CHS_UPE_LR.shape_y ⟨⟨Do, t⟩, {}, gap, 355, none⟩) ∧
    (∀ Do t yc : ℝ, 0 < t → t < Do / 2 →
      1 ≤ CHS_UPE_TB.shape_y ⟨⟨Do, t⟩, {}, yc, 355⟩ ∧
      (39 ≤ yc → 1 ≤ CHS_UPE_TB.shape_x ⟨⟨Do, t⟩, {}, yc, 355⟩)) := by
  refine ⟨?_, ?_, ?_⟩
  · intro s hb1 ht1 hb2 ht2 htw hH htwb
    exact builtUpI_shape_y_ge_one s hb1 ht1 hb2 ht2 htw hH htwb
  · intro Do t gap ht htD hg
    exact ⟨LR_shape_x_ge_one Do t gap ht htD, LR_shape_y_ge_one Do t gap ht htD hg⟩
  · intro Do t yc ht htD
    exact ⟨TB_shape_y_ge_one Do t yc ht htD, fun hyc => TB_shape_x_ge_one Do t yc ht htD hyc⟩

/-- C4 witness: the amended invariant at the documented demo geometries —
the demo built-up I, the demo tube with the default gap, and the default
top-bottom offset. -/
theorem C4_witness :
    1 ≤ BuiltUpI.shape_y ⟨300, 20, 100, 20, 10, 800, 355⟩ ∧
    (1 ≤ CHS_UPE_LR.shape_x ⟨⟨323, 12⟩, {}, 28.9, 355, none⟩ ∧
      1 ≤ CHS_UPE_LR.shape_y ⟨⟨323, 12⟩, {}, 28.9, 355, none⟩) ∧
    (1 ≤ CHS_UPE_TB.shape_y ⟨⟨323, 12⟩, {}, 190.4, 355⟩ ∧
      1 ≤ CHS_UPE_TB.shape_x ⟨⟨323, 12⟩, {}, 190.4, 355⟩) := by
  refine ⟨?_, ?_, ?_, ?_⟩
  · exact C4_amended.1 ⟨300, 20, 100, 20, 10, 800, 355⟩ (by norm_num) (by norm_num)
      (by norm_num) (by norm_num) (by norm_num) (by norm_num) (by norm_num)
  · exact C4_amended.2.1 323 12 28.9 (by norm_num) (by norm_num) (by norm_num)
  · exact (C4_amended.2.2 323 12 190.4 (by norm_num) (by norm_num)).1
  · exact (C4_amended.2.2 323 12 190.4 (by norm_num) (by norm_num)).2 (by norm_num)

/-!
### Claim C5 — output record key sets

The two composite strategies do return the full key set including the
`section` label (and their offset field).  `BuiltUpI.compute`, however,
returns only the thirteen numeric keys: the `section` label is attached by
the caller after the call, not by `compute` itself, so the claim fails for
the built-up I strategy.
-/

/-- C5 counterexample: the record returned by `BuiltUpI.compute` at the demo
geometry contains no `section` key. -/
theorem C5_counterexample :
    "section" ∉ (BuiltUpI.computeRecord ⟨300, 20, 100, 20, 10, 800, 355⟩).map Prod.fst := by
  simp +decide [BuiltUpI.computeRecord]

/-- C5 (amended): each strategy returns a flat record with a fixed key set —
the built-up I record carries exactly the thirteen numeric keys (area, Ix,
Iy, elastic/plastic moduli, elastic/plastic moments and shape factors for
both axes) but no section label; the two composite records additionally
carry the section label first and their centroid-offset field
(`x_c_mm` resp. `y_c_mm`) second. -/
theorem C5_amended :
    (∀ s : BuiltUpI, (BuiltUpI.computeRecord s).map Prod.fst =
      ["A_mm2", "Ix_mm4", "Iy_mm4", "We_x_mm3", "We_y_mm3", "Wp_x_mm3", "Wp_y_mm3",
       "Me_x_kNm", "Mp_x_kNm", "shape_x", "Me_y_kNm", "Mp_y_kNm", "shape_y"]) ∧
    (∀ s : CHS_UPE_LR, (CHS_UPE_LR.computeRecord s).map Prod.fst =
      ["section", "x_c_mm", "A_mm2", "Ix_mm4", "Iy_mm4", "We_x_mm3", "We_y_mm3",
       "Wp_x_mm3", "Wp_y_mm3", "Me_x_kNm", "Mp_x_kNm", "shape_x", "Me_y_kNm",
       "Mp_y_kNm", "shape_y"]) ∧
    (∀ s : CHS_UPE_TB, (CHS_UPE_TB.computeRecord s).map Prod.fst =
      ["section", "y_c_mm", "A_mm2", "Ix_mm4", "Iy_mm4", "We_x_mm3", "We_y_mm3",
       "Wp_x_mm3", "Wp_y_mm3", "Me_x_kNm", "Mp_x_kNm", "shape_x", "Me_y_kNm",
       "Mp_y_kNm", "shape_y"]) :=
  ⟨fun _ => rfl, fun _ => rfl, fun _ => rfl⟩

/-!
### Claim C6 — governing elastic moduli of the built-up I
-/

/-- C6: for every built-up I section the elastic modulus about x is the
minimum of `Ix` divided by the centroid-to-top distance (`ybar`) and `Ix`
divided by the centroid-to-bottom distance (`H - ybar`), and the elastic
modulus about y is `Iy` divided by half of the wider flange width. -/
theorem C6_governing_elastic_moduli (s : BuiltUpI) :
    BuiltUpI.We_x s = min (BuiltUpI.Ix s / BuiltUpI.ybar s)
        (BuiltUpI.Ix s / (s.H - BuiltUpI.ybar s)) ∧
    BuiltUpI.We_y s = BuiltUpI.Iy s / (max s.b_top s.b_bot / 2) := by
  refine ⟨rfl, ?_⟩
  rw [BuiltUpI.We_y, max_div_div_right (by norm_num : (0 : ℚ) ≤ 2)]

/-!
### Claim C7 — symmetric flanges put the centroid at mid-height
-/

/-- C7: when top and bottom flanges have equal width and equal thickness
(and the geometry is valid), the computed area-weighted centroid lies at
exactly `H / 2`. -/
theorem C7_symmetric_centroid (s : BuiltUpI) (hb : s.b_top = s.b_bot)
    (ht : s.t_top = s.t_bot) (hbp : 0 < s.b_top) (htp : 0 < s.t_top)
    (htw : 0 < s.tw) (hH : s.t_top + s.t_bot < s.H) :
    BuiltUpI.ybar s = s.H / 2 := by
  have hA : BuiltUpI.A s ≠ 0 := by
    have h1 : 0 < s.b_top * s.t_top := mul_pos hbp htp
    have h2 : 0 < s.tw * (s.H - s.t_top - s.t_bot) := mul_pos htw (by linarith)
    have h3 : 0 < s.b_bot * s.t_bot := by rw [← hb, ← ht]; exact h1
    have : 0 < BuiltUpI.A s := by
      simp only [BuiltUpI.A, BuiltUpI.A_top, BuiltUpI.A_web, BuiltUpI.A_bot]
      linarith
    exact ne_of_gt this
  simp only [BuiltUpI.ybar, BuiltUpI.A_top, BuiltUpI.A_web, BuiltUpI.A_bot,
    BuiltUpI.y_top, BuiltUpI.y_web, BuiltUpI.y_bot, BuiltUpI.A] at hA ⊢
  rw [div_eq_iff hA, hb, ht]
  ring

/-- C7 witness: a symmetric built-up I (`b=300, t=20, H=800`) has its
centroid at exactly 400. -/
theorem C7_witness : BuiltUpI.ybar ⟨300, 20, 300, 20, 10, 800, 355⟩ = 800 / 2 :=
  C7_symmetric_centroid ⟨300, 20, 300, 20, 10, 800, 355⟩ rfl rfl (by norm_num)
    (by norm_num) (by norm_num) (by norm_num)

/-!
### Claim C8 — strong-axis plastic-modulus override policy of the
left-right composite
-/

/-- C8: without an override the left-right `Wp_x` is
`tube.Wp + 2·(1.12·Ix/(h/2))` (the catalog's empirical estimate), with no
failure; with an override `v` it is `tube.Wp + 2·v`. -/
theorem C8_override_policy (tube : CHS) (u : UPE300Catalog) (gap fy : ℝ) :
    CHS_UPE_LR.Wp_x ⟨tube, u, gap, fy, none⟩
        = tube.Wp + 2 * (1.12 * (u.Ix / (u.h / 2))) ∧
    ∀ v : ℝ, CHS_UPE_LR.Wp_x ⟨tube, u, gap, fy, some v⟩ = tube.Wp + 2 * v :=
  ⟨rfl, fun _ => rfl⟩

/-!
### Claim C9 — tube closed forms and positivity
-/

/-- C9: for a valid tube (`0 < t < Do/2`) the area, second moment and
plastic modulus equal the annulus closed forms with `Ro = Do/2` and
`Ri = Ro - t`, all three are strictly positive, and the area is strictly
less than the full-disk area `π·Ro²`. -/
theorem C9_tube_closed_forms (Do t : ℝ) (ht : 0 < t) (htD : t < Do / 2) :
    CHS.A ⟨Do, t⟩ = Real.pi * ((Do / 2) ^ 2 - (Do / 2 - t) ^ 2) ∧
    CHS.I ⟨Do, t⟩ = Real.pi / 4 * ((Do / 2) ^ 4 - (Do / 2 - t) ^ 4) ∧
    CHS.Wp ⟨Do, t⟩ = 4 / 3 * ((Do / 2) ^ 3 - (Do / 2 - t) ^ 3) ∧
    0 < CHS.A ⟨Do, t⟩ ∧ 0 < CHS.I ⟨Do, t⟩ ∧ 0 < CHS.Wp ⟨Do, t⟩ ∧
    CHS.A ⟨Do, t⟩ < Real.pi * (Do / 2) ^ 2 := by
  have hpi : 0 < Real.pi := Real.pi_pos
  have hRi : 0 < Do / 2 - t := by linarith
  have hRo : 0 < Do / 2 := lt_trans ht htD
  have hlt : Do / 2 - t < Do / 2 := by linarith
  refine ⟨rfl, rfl, rfl, ?_, ?_, ?_, ?_⟩
  · simp only [CHS.A, CHS.Ro, CHS.Ri]
    nlinarith [mul_pos hpi (mul_pos ht (show (0 : ℝ) < Do - t by linarith))]
  · simp only [CHS.I, CHS.Ro, CHS.Ri]
    have h4 : (Do / 2 - t) ^ 4 < (Do / 2) ^ 4 :=
      pow_lt_pow_left₀ hlt hRi.le (by norm_num)
    nlinarith
  · simp only [CHS.Wp, CHS.Ro, CHS.Ri]
    have h3 : (Do / 2 - t) ^ 3 < (Do / 2) ^ 3 :=
      pow_lt_pow_left₀ hlt hRi.le (by norm_num)
    nlinarith
  · simp only [CHS.A, CHS.Ro, CHS.Ri]
    nlinarith [mul_pos hpi (pow_pos hRi 2)]

/-- C9 witness: the documented tube `Do=323, t=12` satisfies all the closed
forms and bounds. -/
theorem C9_witness :
    (0 : ℝ) < 12 ∧ (12 : ℝ) < 323 / 2 ∧
    (CHS.A ⟨323, 12⟩ = Real.pi * ((323 / 2) ^ 2 - (323 / 2 - 12) ^ 2) ∧
      CHS.I ⟨323, 12⟩ = Real.pi / 4 * ((323 / 2) ^ 4 - (323 / 2 - 12) ^ 4) ∧
      CHS.Wp ⟨323, 12⟩ = 4 / 3 * ((323 / 2) ^ 3 - (323 / 2 - 12) ^ 3) ∧
      0 < CHS.A ⟨323, 12⟩ ∧ 0 < CHS.I ⟨323, 12⟩ ∧ 0 < CHS.Wp ⟨323, 12⟩ ∧
      CHS.A ⟨323, 12⟩ < Real.pi * (323 / 2) ^ 2) :=
  ⟨by norm_num, by norm_num, C9_tube_closed_forms 323 12 (by norm_num) (by norm_num)⟩

/-!
### Claim C10 — the channel edge always governs the left-right `c_y`
-/

/-- C10: for a left-right composite with nonnegative back gap and positive
channel dimensions, the extreme-fiber distance for y-bending is always the
channel-edge term `x_c + b/2` — the tube-surface candidates `Ro` and
`Ro + gap` are never selected — so `We_y = Iy / (x_c + b/2)`. -/
theorem C10_cy_channel_edge (tube : CHS) (u : UPE300Catalog) (gap fy : ℝ)
    (hDo : 0 < tube.Do) (hg : 0 ≤ gap) (he : 0 < u.e_back_to_cg) (hb : 0 < u.b) :
    CHS_UPE_LR.c_y ⟨tube, u, gap, fy, none⟩
        = CHS_UPE_LR.x_c ⟨tube, u, gap, fy, none⟩ + u.b / 2 ∧
    CHS_UPE_LR.We_y ⟨tube, u, gap, fy, none⟩
        = CHS_UPE_LR.Iy ⟨tube, u, gap, fy, none⟩
          / (CHS_UPE_LR.x_c ⟨tube, u, gap, fy, none⟩ + u.b / 2) := by
  have hRo : 0 < tube.Ro := by simp only [CHS.Ro]; linarith
  have hc : CHS_UPE_LR.c_y ⟨tube, u, gap, fy, none⟩
      = CHS_UPE_LR.x_c ⟨tube, u, gap, fy, none⟩ + u.b / 2 := by
    simp only [CHS_UPE_LR.c_y, CHS_UPE_LR.x_outer_upe, CHS_UPE_LR.x_c]
    rw [max_eq_right (le_trans (by linarith : tube.Ro ≤ tube.Ro + gap) (le_max_left _ _)),
      max_eq_right (by linarith : tube.Ro + gap
        ≤ tube.Ro + gap + u.e_back_to_cg + u.b / 2)]
  exact ⟨hc, by rw [CHS_UPE_LR.We_y, hc]⟩

/-- C10 witness: at the documented geometry (`Do=323, t=12, gap=28.9`,
default catalog) the governing fiber is `x_c + 50 = 240.4`. -/
theorem C10_witness :
    CHS_UPE_LR.c_y ⟨⟨323, 12⟩, {}, 28.9, 355, none⟩
        = CHS_UPE_LR.x_c ⟨⟨323, 12⟩, {}, 28.9, 355, none⟩ + (100 : ℝ) / 2 ∧
    CHS_UPE_LR.We_y ⟨⟨323, 12⟩, {}, 28.9, 355, none⟩
        = CHS_UPE_LR.Iy ⟨⟨323, 12⟩, {}, 28.9, 355, none⟩
          / (CHS_UPE_LR.x_c ⟨⟨323, 12⟩, {}, 28.9, 355, none⟩ + (100 : ℝ) / 2) :=
  C10_cy_channel_edge ⟨323, 12⟩ {} 28.9 355 (by norm_num) (by norm_num)
    (by norm_num) (by norm_num)
